import Mathlib

/-!
# Verification of the gt-registration-agent query pipeline

Shallow embedding of `src/main.rs`: the SQL sanitizer (lines 94-99), the
prompt builder (lines 42-67), the query generator (lines 85-92), and the
result renderer (lines 111-149).  Strings are modelled as `List Char`
(for the sanitizer, where line structure matters) or as Lean `String`
(for prompts and table cells).
-/

namespace GTReg

/-! ## Rust string primitives

`str::trim`, `str::lines`, `str::starts_with` as used by `main.rs`. -/

/-- Rust `char::is_whitespace`: the Unicode `White_Space` property
(code points 0x09-0x0D, 0x20, 0x85, 0xA0, 0x1680, 0x2000-0x200A,
0x2028, 0x2029, 0x202F, 0x205F, 0x3000). -/
def isRustWhitespace (c : Char) : Bool :=
  (0x09 ≤ c.val && c.val ≤ 0x0D) || c.val = 0x20 || c.val = 0x85 ||
  c.val = 0xA0 || c.val = 0x1680 || (0x2000 ≤ c.val && c.val ≤ 0x200A) ||
  c.val = 0x2028 || c.val = 0x2029 || c.val = 0x202F || c.val = 0x205F ||
  c.val = 0x3000

/-- Rust `str::trim_start`. -/
def trimStart (l : List Char) : List Char :=
  l.dropWhile isRustWhitespace

/-- Rust `str::trim_end`. -/
def trimEnd (l : List Char) : List Char :=
  (l.reverse.dropWhile isRustWhitespace).reverse

/-- Rust `str::trim`: strip whitespace from both ends. -/
def rustTrim (l : List Char) : List Char :=
  trimEnd (trimStart l)

/-- `s.starts_with("```")`: the first three characters are backticks
(U+0060). -/
def startsWithTicks : List Char → Bool
  | c1 :: c2 :: c3 :: _ => c1.val = 0x60 && c2.val = 0x60 && c3.val = 0x60
  | _ => false

/-- The filter predicate of `main.rs` line 96:
`line.trim().starts_with("```")`. -/
def isFenceLine (l : List Char) : Bool :=
  startsWithTicks (rustTrim l)

/-- Strip one trailing carriage return, as Rust `lines()` does to each
line that was terminated by `\n`. -/
def dropCrSuffix (l : List Char) : List Char :=
  if l.getLast? = some '\x0D' then l.dropLast else l

/-- Post-processing of the `\n`-split pieces for Rust `str::lines`:
every piece except the last was followed by `\n` and has one trailing
`\r` stripped; the last piece is dropped when empty (the final line
terminator is optional) and otherwise kept verbatim (a bare trailing
`\r` is not stripped). -/
def finishLines : List (List Char) → List (List Char)
  | [] => []
  | [last] => if last = [] then [] else [last]
  | p :: ps => dropCrSuffix p :: finishLines ps

/-- Rust `str::lines`. -/
def rustLines (s : List Char) : List (List Char) :=
  finishLines (s.splitOn '\x0A')

/-- The lines of `s` kept by the sanitizer: those whose trimmed form
does not start with a triple backtick (`main.rs` line 96). -/
def keptLines (s : List Char) : List (List Char) :=
  (rustLines s).filter (fun l => !isFenceLine l)

/-- The SQL sanitizer, `main.rs` lines 94-99:
`response_text.lines().filter(|line| !line.trim().starts_with("```")).collect::<Vec<_>>().join("\n")`. -/
def sanitize (s : List Char) : List Char :=
  ['\x0A'].intercalate (keptLines s)

/-! ### Sanity checks on concrete inputs -/

example : rustLines "a\nb".toList = ["a".toList, "b".toList] := by decide
example : rustLines "a\r\nb\n".toList = ["a".toList, "b".toList] := by decide
example : rustLines "a\r".toList = ["a\r".toList] := by decide
example : rustLines "".toList = [] := by decide
example : sanitize "```sql\nSELECT 1;\n```".toList = "SELECT 1;".toList := by
  decide
example : sanitize "SELECT 1;".toList = "SELECT 1;".toList := by decide
example : sanitize "a\n".toList = "a".toList := by decide
example : sanitize "\n\n".toList = "\n".toList := by decide
example : sanitize (sanitize "\n\n".toList) = "".toList := by decide
example : sanitize "a\r\r\nb".toList = "a\r\nb".toList := by decide
example : sanitize (sanitize "a\r\r\nb".toList) = "a\nb".toList := by decide

/-! ## The execution stage

`main.rs` lines 102-105: the sanitized text is handed directly to
`conn.fetch_all`, with no special-casing of empty (or any other) input.
The database itself is an external effect, so the executor is a
parameter. -/

/-- Failure of `conn.fetch_all` (surfaced via
`wrap_err("Failed to execute SQL query")` and `?`). -/
inductive ExecError
  | execFailed

/-- `main.rs` lines 94-105: sanitize the response text, then pass the
result verbatim to the executor. -/
def runSqlStage {ρ : Type} (exec : List Char → Except ExecError ρ)
    (responseText : List Char) : Except ExecError ρ :=
  exec (sanitize responseText)

/-! ## The result renderer

`main.rs` lines 111-149.  A result row is an ordered list of named,
typed columns.  The underlying SQLite storage classes that matter to
the renderer are TEXT (decodes as `String`), INTEGER (decodes as
`i64`), NULL, and the rest (REAL, BLOB — decodable as neither, modelled
together as `other`).

Two details of sqlx's `Row::try_get` matter:

* the type-compatibility check is skipped for NULL values, and the
  sqlite decoders then read the empty value, so `try_get::<String>` on
  NULL is `Ok("")` and `try_get::<i64>` on NULL is `Ok(0)` — NULL is
  *not* a decode error;
* `main.rs` line 129 looks the value up *by name*
  (`row.try_get(column.name())`).  sqlx resolves a name through a
  name-to-index map collected from the columns in order, so with
  duplicate column names every same-named column resolves to the *last*
  column bearing that name. -/

/-- A SQLite value as seen by the renderer. -/
inductive SqlValue
  | text (s : String)
  | integer (i : Int)
  | null
  | other
deriving DecidableEq

/-- A failure from `row.try_get`: either the value's type is
incompatible with the requested Rust type, or no column has the
requested name. -/
inductive DecodeError
  | columnDecode
  | columnNotFound
deriving DecidableEq

/-- sqlx decoding of a sqlite value as `String`: TEXT decodes to its
text; NULL skips the compatibility check and decodes to `""`; INTEGER,
REAL and BLOB fail the compatibility check. -/
def tryGetString : SqlValue → Except DecodeError String
  | .text s => .ok s
  | .null => .ok ""
  | _ => .error .columnDecode

/-- sqlx decoding of a sqlite value as `i64`: INTEGER decodes to its
integer; NULL skips the compatibility check and decodes to `0`; TEXT,
REAL and BLOB fail the compatibility check. -/
def tryGetI64 : SqlValue → Except DecodeError Int
  | .integer i => .ok i
  | .null => .ok 0
  | _ => .error .columnDecode

/-- The value-level fallback chain of `main.rs` lines 128-131: decode
as text, or else as a 64-bit integer converted to decimal text with
`to_string()`. -/
def cellText (v : SqlValue) : Except DecodeError String :=
  match tryGetString v with
  | .ok s => .ok s
  | .error _ =>
    match tryGetI64 v with
    | .ok i => .ok (toString i)
    | .error e => .error e

/-- One named column of a result row. -/
structure ResultColumn where
  name : String
  value : SqlValue
deriving DecidableEq

/-- sqlx name-based column resolution: the name-to-index map keeps, for
each name, the index of the last column inserted with it, so a name
resolves to the *last* column of the row bearing it (`none` when no
column has the name). -/
def resolveColumn (r : List ResultColumn) (n : String) : Option ResultColumn :=
  (r.filter (fun c => c.name == n)).getLast?

/-- `row.try_get::<String, _>(n)` of `main.rs` line 129: resolve the
name, then decode the resolved column's value as text. -/
def tryGetStringByName (r : List ResultColumn) (n : String) : Except DecodeError String :=
  match resolveColumn r n with
  | none => .error .columnNotFound
  | some c => tryGetString c.value

/-- `row.try_get::<i64, _>(n)` of `main.rs` line 130: resolve the name,
then decode the resolved column's value as a 64-bit integer. -/
def tryGetI64ByName (r : List ResultColumn) (n : String) : Except DecodeError Int :=
  match resolveColumn r n with
  | none => .error .columnNotFound
  | some c => tryGetI64 c.value

/-- `main.rs` lines 128-131 as executed: both reads go through the row
by *name*, the second only when the first fails. -/
def cellTextByName (r : List ResultColumn) (n : String) : Except DecodeError String :=
  match tryGetStringByName r n with
  | .ok s => .ok s
  | .error _ =>
    match tryGetI64ByName r n with
    | .ok i => .ok (toString i)
    | .error e => .error e

/-- A row of the rendered table (`term_table::row::Row`): its cell
strings and its `has_separator` flag (`Row::new` defaults the flag to
`true`). -/
structure TableRow where
  cells : List String
  has_separator : Bool
deriving DecidableEq

/-- The inner loop of `main.rs` lines 124-134, iterating the columns
`l` of the full row `r`: skip columns named `raw`; for the rest, record
the column name in the header and the *by-name* decoded cell text in
the data row; a decode failure aborts via `?`.  Returns (header names,
cell texts). -/
def processRowAux (r : List ResultColumn) : List ResultColumn → Except DecodeError (List String × List String)
  | [] => .ok ([], [])
  | c :: rest =>
    if c.name = "raw" then processRowAux r rest
    else
      match cellTextByName r c.name with
      | .error e => .error e
      | .ok v =>
        match processRowAux r rest with
        | .error e => .error e
        | .ok (h, t) => .ok (c.name :: h, v :: t)

/-- Process one result row: iterate its own columns, resolving each
read against the row itself. -/
def processRow (r : List ResultColumn) : Except DecodeError (List String × List String) :=
  processRowAux r r

/-- The outer loop of `main.rs` lines 119-141: process each row in
order; the first decode failure aborts the whole rendering. -/
def processRows : List (List ResultColumn) → Except DecodeError (List (List String × List String))
  | [] => .ok []
  | r :: rest =>
    match processRow r with
    | .error e => .error e
    | .ok p =>
      match processRows rest with
      | .error e => .error e
      | .ok ps => .ok (p :: ps)

/-- `main.rs` line 148: after inserting the header at index 0, set
`has_separator` on the second row when the table has more than one
row. -/
def setSecondSeparator : List TableRow → List TableRow
  | r0 :: r1 :: rest => r0 :: ⟨r1.cells, true⟩ :: rest
  | l => l

/-- `main.rs` lines 111-149: build the table's row list.  `header_row`
is cleared and rebuilt on every iteration, so the header that survives
is the one of the last processed row (empty when there are no rows);
data rows get `has_separator = false`; the header is inserted at index
0; then the second row's separator is switched on when present. -/
def buildTable (rows : List (List ResultColumn)) : Except DecodeError (List TableRow) :=
  match processRows rows with
  | .error e => .error e
  | .ok ps =>
    let headerRow : TableRow := ⟨(ps.map Prod.fst).getLastD [], true⟩
    let dataRows := ps.map (fun p => TableRow.mk p.2 false)
    .ok (setSecondSeparator (headerRow :: dataRows))

/-- The header the source derives from a single result row: its column
names with `raw` excluded, in order. -/
def rowHeader (r : List ResultColumn) : List String :=
  (r.filter (fun c => !(c.name == "raw"))).map ResultColumn.name

/-- The header of the rendered table: the names of the last row's
non-`raw` columns (empty when there are no rows). -/
def lastRowHeader (rows : List (List ResultColumn)) : List String :=
  rowHeader (rows.getLastD [])

/-- The header cells of a built table (row 0). -/
def headerCells (t : List TableRow) : List String :=
  (t.headD ⟨[], true⟩).cells

/-! ### Structural lemmas about the renderer -/

/-- A successful `processRowAux` returns exactly the iterated columns'
non-`raw` names as its header part. -/
theorem processRowAux_ok_fst (r : List ResultColumn) (l : List ResultColumn)
    (p : List String × List String)
    (h : processRowAux r l = .ok p) : p.1 = rowHeader l := by
  induction l generalizing p with
  | nil =>
    simp only [processRowAux] at h
    cases h
    rfl
  | cons c rest ih =>
    by_cases hname : c.name = "raw"
    · rw [processRowAux, if_pos hname] at h
      rw [ih p h, rowHeader, rowHeader]
      simp [hname]
    · rw [processRowAux, if_neg hname] at h
      cases hv : cellTextByName r c.name with
      | error e => rw [hv] at h; cases h
      | ok v =>
        rw [hv] at h
        cases hrest : processRowAux r rest with
        | error e => rw [hrest] at h; cases h
        | ok q =>
          obtain ⟨qh, qt⟩ := q
          rw [hrest] at h
          cases h
          have hih : qh = rowHeader rest := ih (qh, qt) hrest
          show c.name :: qh = rowHeader (c :: rest)
          simp [rowHeader, List.filter_cons, hname, hih]

/-- A successful `processRow` returns exactly the row's non-`raw`
column names as its header part. -/
theorem processRow_ok_fst (r : List ResultColumn) (p : List String × List String)
    (h : processRow r = .ok p) : p.1 = rowHeader r :=
  processRowAux_ok_fst r r p h

/-- A successful `processRowAux` performs the by-name read for every
non-`raw` iterated column and places the decoded text among its
cells. -/
theorem processRowAux_ok_cells (r : List ResultColumn) (l : List ResultColumn)
    (p : List String × List String)
    (h : processRowAux r l = .ok p) (c : ResultColumn) (hc : c ∈ l)
    (hname : c.name ≠ "raw") :
    ∃ v, cellTextByName r c.name = .ok v ∧ v ∈ p.2 := by
  induction l generalizing p with
  | nil => cases hc
  | cons c0 rest ih =>
    by_cases h0 : c0.name = "raw"
    · rw [processRowAux, if_pos h0] at h
      rcases List.mem_cons.mp hc with hceq | hcrest
      · exact absurd (hceq ▸ h0) hname
      · exact ih p h hcrest
    · rw [processRowAux, if_neg h0] at h
      cases hv : cellTextByName r c0.name with
      | error e => rw [hv] at h; cases h
      | ok v =>
        rw [hv] at h
        cases hrest : processRowAux r rest with
        | error e => rw [hrest] at h; cases h
        | ok q =>
          obtain ⟨qh, qt⟩ := q
          rw [hrest] at h
          cases h
          rcases List.mem_cons.mp hc with hceq | hcrest
          · subst hceq
            exact ⟨v, hv, List.mem_cons_self v qt⟩
          · obtain ⟨w, hw, hwmem⟩ := ih (qh, qt) hrest hcrest
            exact ⟨w, hw, List.mem_cons_of_mem v hwmem⟩

/-- A successful `processRow` performs the by-name read for every
non-`raw` column of the row and places the decoded text among its
cells. -/
theorem processRow_ok_cells (r : List ResultColumn) (p : List String × List String)
    (h : processRow r = .ok p) (c : ResultColumn) (hc : c ∈ r)
    (hname : c.name ≠ "raw") :
    ∃ v, cellTextByName r c.name = .ok v ∧ v ∈ p.2 :=
  processRowAux_ok_cells r r p h c hc hname

/-- Within a row, name resolution for one of its own columns always
succeeds, and the resolved column bears the looked-up name. -/
theorem resolveColumn_mem (r : List ResultColumn) (c : ResultColumn)
    (hc : c ∈ r) :
    ∃ c0, resolveColumn r c.name = some c0 ∧ c0.name = c.name := by
  have hmem : c ∈ r.filter (fun x => x.name == c.name) :=
    List.mem_filter.mpr ⟨hc, by simp⟩
  have hne : r.filter (fun x => x.name == c.name) ≠ [] := by
    intro hnil
    rw [hnil] at hmem
    cases hmem
  obtain ⟨c0, hc0⟩ := Option.isSome_iff_exists.mp
    (List.getLast?_isSome.mpr hne)
  refine ⟨c0, hc0, ?_⟩
  obtain ⟨hne', heq⟩ := List.mem_getLast?_eq_getLast (Option.mem_def.mpr hc0)
  have hc0mem : c0 ∈ r.filter (fun x => x.name == c.name) := by
    rw [heq]
    exact List.getLast_mem hne'
  have := (List.mem_filter.mp hc0mem).2
  simpa using this

/-- A successful `processRows` produced one result per row. -/
theorem processRows_length (rows : List (List ResultColumn))
    (ps : List (List String × List String))
    (h : processRows rows = .ok ps) : ps.length = rows.length := by
  induction rows generalizing ps with
  | nil => simp only [processRows] at h; cases h; rfl
  | cons r rest ih =>
    rw [processRows] at h
    cases hr : processRow r with
    | error e => rw [hr] at h; cases h
    | ok p =>
      rw [hr] at h
      cases hrest : processRows rest with
      | error e => rw [hrest] at h; cases h
      | ok qs =>
        rw [hrest] at h
        cases h
        simp [ih qs hrest]

/-- A successful `processRows` processed every row successfully. -/
theorem processRows_mem (rows : List (List ResultColumn))
    (ps : List (List String × List String))
    (h : processRows rows = .ok ps) (r : List ResultColumn) (hr : r ∈ rows) :
    ∃ p ∈ ps, processRow r = .ok p := by
  induction rows generalizing ps with
  | nil => cases hr
  | cons r0 rest ih =>
    rw [processRows] at h
    cases hr0 : processRow r0 with
    | error e => rw [hr0] at h; cases h
    | ok p =>
      rw [hr0] at h
      cases hrest : processRows rest with
      | error e => rw [hrest] at h; cases h
      | ok qs =>
        rw [hrest] at h
        cases h
        rcases List.mem_cons.mp hr with hreq | hrrest
        · exact ⟨p, List.mem_cons_self p qs, hreq ▸ hr0⟩
        · obtain ⟨q, hq, hqok⟩ := ih qs hrest hrrest
          exact ⟨q, List.mem_cons_of_mem p hq, hqok⟩

/-- The last header produced by `processRows` is that of the last row. -/
theorem processRows_lastHeader (rows : List (List ResultColumn))
    (ps : List (List String × List String))
    (h : processRows rows = .ok ps) :
    (ps.map Prod.fst).getLast? = rows.getLast?.map rowHeader := by
  induction rows generalizing ps with
  | nil => simp only [processRows] at h; cases h; rfl
  | cons r rest ih =>
    rw [processRows] at h
    cases hr : processRow r with
    | error e => rw [hr] at h; cases h
    | ok p =>
      rw [hr] at h
      cases hrest : processRows rest with
      | error e => rw [hrest] at h; cases h
      | ok qs =>
        rw [hrest] at h
        cases h
        cases rest with
        | nil =>
          have hqs : qs = [] := by
            have := processRows_length [] qs hrest
            simpa using List.length_eq_zero.mp (by simpa using this)
          subst hqs
          simp [processRow_ok_fst r p hr]
        | cons r1 rest1 =>
          have hqs : qs ≠ [] := by
            intro hnil
            have := processRows_length (r1 :: rest1) qs hrest
            rw [hnil] at this
            simp at this
          obtain ⟨q0, qs0, rfl⟩ := List.exists_cons_of_ne_nil hqs
          have ihq := ih (q0 :: qs0) hrest
          simp only [List.map_cons] at ihq ⊢
          rw [List.getLast?_cons_cons, List.getLast?_cons_cons]
          exact ihq

/-- `setSecondSeparator` keeps the head row's cells. -/
theorem setSecondSeparator_headerCells (r0 : TableRow) (l : List TableRow) :
    headerCells (setSecondSeparator (r0 :: l)) = r0.cells := by
  cases l with
  | nil => rfl
  | cons r1 rest => rfl

/-- `setSecondSeparator` keeps the number of rows. -/
theorem setSecondSeparator_length (l : List TableRow) :
    (setSecondSeparator l).length = l.length := by
  cases l with
  | nil => rfl
  | cons r0 rest =>
    cases rest with
    | nil => rfl
    | cons r1 rest1 => rfl

/-- A successfully built table has the last row's non-`raw` column names
as its header and one table row per result row plus the header. -/
theorem buildTable_header (rows : List (List ResultColumn)) (t : List TableRow)
    (h : buildTable rows = .ok t) :
    headerCells t = lastRowHeader rows ∧ t.length = rows.length + 1 := by
  rw [buildTable] at h
  cases hps : processRows rows with
  | error e => rw [hps] at h; cases h
  | ok ps =>
    rw [hps] at h
    cases h
    constructor
    · rw [setSecondSeparator_headerCells]
      show (ps.map Prod.fst).getLastD [] = lastRowHeader rows
      rw [List.getLastD_eq_getLast?, processRows_lastHeader rows ps hps,
        lastRowHeader, List.getLastD_eq_getLast?]
      cases rows.getLast? with
      | none => rfl
      | some r => rfl
    · rw [setSecondSeparator_length]
      simp [processRows_length rows ps hps]

end GTReg

namespace GTReg

/-! ## Claims about the SQL sanitizer -/

/-- **C1**: for every input string to the SQL sanitizer, every line whose
trimmed form starts with a triple-backtick marker is absent from the kept
lines, the relative order of all other lines is preserved (the kept lines
form a sublist of the input's lines, and every non-fence line is kept),
and the output is the kept lines rejoined with newline separators. -/
theorem C1_sanitizer_strips_fences (s : List Char) :
    sanitize s = ['\x0A'].intercalate (keptLines s)
    ∧ (keptLines s).Sublist (rustLines s)
    ∧ (∀ l ∈ keptLines s, isFenceLine l = false)
    ∧ (∀ l ∈ rustLines s, isFenceLine l = false → l ∈ keptLines s)
    ∧ (∀ l ∈ rustLines s, isFenceLine l = true → l ∉ keptLines s) := by
  refine ⟨rfl, List.filter_sublist _, ?_, ?_, ?_⟩
  · intro l hl
    have := List.of_mem_filter hl
    simpa using this
  · intro l hl hf
    exact List.mem_filter.mpr ⟨hl, by simp [hf]⟩
  · intro l _ hf hmem
    have := List.of_mem_filter hmem
    simp [hf] at this

/-- Witness for C1 at the spec's example input. -/
theorem C1_sanitizer_strips_fences_witness :
    sanitize "```sql\nSELECT 1;\n```".toList = "SELECT 1;".toList
    ∧ "SELECT 1;".toList ∈ keptLines "```sql\nSELECT 1;\n```".toList := by
  have h := C1_sanitizer_strips_fences "```sql\nSELECT 1;\n```".toList
  exact ⟨by decide, h.2.2.2.1 "SELECT 1;".toList (by decide) (by decide)⟩

/-- **C9 counterexample**: the input `"a\n"` contains no fence line
(all its lines are kept), yet the sanitizer's output `"a"` differs from
the input: `lines()` drops the trailing line terminator, so the
sanitizer is not the identity on the whole no-fence subset. -/
theorem C9_counterexample :
    keptLines "a\n".toList = rustLines "a\n".toList
    ∧ sanitize "a\n".toList ≠ "a\n".toList := by
  constructor
  · decide
  · decide

/-- **C9 (amended)**: on inputs with no fence line that additionally
round-trip through line splitting (no trailing newline and no CRLF line
terminators, so rejoining the lines with `\n` reproduces the input), the
sanitizer is the identity. -/
theorem C9_identity_no_fences (s : List Char)
    (hnf : ∀ l ∈ rustLines s, isFenceLine l = false)
    (hjoin : ['\x0A'].intercalate (rustLines s) = s) :
    sanitize s = s := by
  have hk : keptLines s = rustLines s := by
    apply List.filter_eq_self.mpr
    intro a ha
    simp [hnf a ha]
  rw [sanitize, hk, hjoin]

/-- Witness for C9 (amended) at the no-fence input `"SELECT 1;"`. -/
theorem C9_identity_no_fences_witness :
    sanitize "SELECT 1;".toList = "SELECT 1;".toList :=
  C9_identity_no_fences "SELECT 1;".toList (by decide) (by decide)

/-- **C10 counterexample**: at input `"\n\n"` the sanitizer is not
idempotent: one application yields `"\n"` (two empty lines joined), a
second application yields `""` (the trailing empty line is lost by
`lines()`). -/
theorem C10_counterexample :
    sanitize (sanitize "\n\n".toList) ≠ sanitize "\n\n".toList := by
  decide

/-- **C10 (amended)**: the sanitizer is idempotent on every input whose
sanitized output splits back into exactly the kept lines (which holds
unless a kept line ends in a carriage return that precedes a later line,
or the kept lines end with an empty line).  The reason offered by the
claim is sound as far as it goes — no kept line is a fence, so the
second pass filters nothing — but re-splitting the joined output can
still alter the line list, which is what the counterexample exploits. -/
theorem C10_idempotent_on_stable (s : List Char)
    (h : rustLines (sanitize s) = keptLines s) :
    sanitize (sanitize s) = sanitize s := by
  have hk : keptLines (sanitize s) = keptLines s := by
    rw [keptLines, h]
    apply List.filter_eq_self.mpr
    intro a ha
    simp only [keptLines] at ha
    simpa using (List.mem_filter.mp ha).2
  have hdef : sanitize (sanitize s) = ['\x0A'].intercalate (keptLines (sanitize s)) := rfl
  rw [hdef, hk]
  rfl

/-- Witness for C10 (amended) at a fenced input. -/
theorem C10_idempotent_on_stable_witness :
    sanitize (sanitize "```\nSELECT 1;\n```".toList)
      = sanitize "```\nSELECT 1;\n```".toList :=
  C10_idempotent_on_stable "```\nSELECT 1;\n```".toList (by decide)

/-- **C8**: if every line of the sanitizer's input has a trimmed form
starting with a triple-backtick marker, the sanitizer's result is the
empty string; it is passed to the query executor unchanged (the
execution stage applies the executor to exactly the sanitized text, with
no special case), and when the executor fails on the empty statement the
stage surfaces that execution error. -/
theorem C8_all_fences_empty {ρ : Type} (s : List Char)
    (exec : List Char → Except ExecError ρ) (e : ExecError)
    (hall : ∀ l ∈ rustLines s, isFenceLine l = true)
    (hexec : exec [] = .error e) :
    sanitize s = [] ∧ runSqlStage exec s = .error e := by
  have hk : keptLines s = [] := by
    apply List.filter_eq_nil_iff.mpr
    intro a ha
    simp [hall a ha]
  have hs : sanitize s = [] := by
    rw [sanitize, hk]
    rfl
  exact ⟨hs, by rw [runSqlStage, hs]; exact hexec⟩

/-! ## Claims about the result renderer -/

/-- **C2 counterexample**: two rows with differing column sets.  The
rendered header is `["b"]`, the names of the *last* row, not `["a"]`,
the names of the first — `header_row` is cleared and rebuilt on every
loop iteration. -/
theorem C2_counterexample :
    buildTable [[ResultColumn.mk "a" (SqlValue.text "x")],
                [ResultColumn.mk "b" (SqlValue.text "y")]]
      = Except.ok [TableRow.mk ["b"] true, TableRow.mk ["x"] true,
                   TableRow.mk ["y"] false]
    ∧ headerCells [TableRow.mk ["b"] true, TableRow.mk ["x"] true,
                   TableRow.mk ["y"] false] = ["b"]
    ∧ rowHeader [ResultColumn.mk "a" (SqlValue.text "x")] = ["a"]
    ∧ (["b"] : List String) ≠ ["a"] := by
  refine ⟨rfl, rfl, rfl, ?_⟩
  decide

/-- **C2 (amended)**: for every successfully rendered result-row
sequence, the table's header row is derived from the column names of
the *last* row (retaining the `raw` exclusion; empty when there are no
rows), and the table has one data row per result row.  This coincides
with the first row's column names exactly when all rows share one
column set, which the upstream query is assumed (but not checked) to
guarantee. -/
theorem C2_header_from_last_row (rows : List (List ResultColumn))
    (t : List TableRow) (h : buildTable rows = .ok t) :
    headerCells t = lastRowHeader rows ∧ t.length = rows.length + 1 :=
  buildTable_header rows t h

/-- Witness for C2 (amended) at a two-row input. -/
theorem C2_header_from_last_row_witness :
    headerCells [TableRow.mk ["crn"] true, TableRow.mk ["1"] true,
                 TableRow.mk ["2"] false]
      = lastRowHeader [[ResultColumn.mk "crn" (SqlValue.text "1")],
                       [ResultColumn.mk "crn" (SqlValue.text "2")]]
    ∧ ([TableRow.mk ["crn"] true, TableRow.mk ["1"] true,
        TableRow.mk ["2"] false] : List TableRow).length
      = [[ResultColumn.mk "crn" (SqlValue.text "1")],
         [ResultColumn.mk "crn" (SqlValue.text "2")]].length + 1 :=
  C2_header_from_last_row
    [[ResultColumn.mk "crn" (SqlValue.text "1")],
     [ResultColumn.mk "crn" (SqlValue.text "2")]]
    [TableRow.mk ["crn"] true, TableRow.mk ["1"] true, TableRow.mk ["2"] false]
    rfl

/-- **C3 counterexample**: a row with two columns both named `a`
holding distinct text values `"x"` and `"y"`.  The first column's own
value reads as text `"x"`, yet `"x"` appears in no rendered cell: both
by-name reads resolve to the last `a` column, so both cells render
`"y"`.  The rendered cell is therefore not "the value read as text" of
the column it stands for. -/
theorem C3_counterexample :
    buildTable [[ResultColumn.mk "a" (SqlValue.text "x"),
                 ResultColumn.mk "a" (SqlValue.text "y")]]
      = Except.ok [TableRow.mk ["a", "a"] true, TableRow.mk ["y", "y"] true]
    ∧ tryGetString (SqlValue.text "x") = .ok "x"
    ∧ "x" ∉ (["y", "y"] : List String) := by
  refine ⟨rfl, rfl, ?_⟩
  decide

/-- **C3 (amended)**: for every result row and every column of it not
named `raw`, the rendered cell is the text of the value the column's
*name resolves to* — the last column of the row bearing that name,
which is the column itself whenever its name is unique in the row.  A
resolved TEXT value renders as its text and NULL renders as the empty
string (the text read succeeds on both); when the text read fails, a
resolved INTEGER value renders as its decimal text (integer 42 renders
exactly as the text `"42"`); when both reads fail (REAL or BLOB), the
whole rendering aborts with an error and no table is produced.
Whenever the table is built, the by-name decoded text of each non-`raw`
column is among the cells of that row's processed data. -/
theorem C3_cell_coercion (rows : List (List ResultColumn))
    (r : List ResultColumn) (c : ResultColumn)
    (hr : r ∈ rows) (hc : c ∈ r) (hname : c.name ≠ "raw") :
    (∃ c0, resolveColumn r c.name = some c0 ∧ c0.name = c.name)
    ∧ (∀ c0, resolveColumn r c.name = some c0 →
        (∀ s, c0.value = .text s → cellTextByName r c.name = .ok s)
        ∧ (c0.value = .null → cellTextByName r c.name = .ok "")
        ∧ (∀ i, c0.value = .integer i →
            cellTextByName r c.name = .ok (toString i))
        ∧ (c0.value = .other → ∀ t, buildTable rows ≠ .ok t))
    ∧ (∀ t, buildTable rows = .ok t →
        ∃ p, processRow r = .ok p
          ∧ ∃ v, cellTextByName r c.name = .ok v ∧ v ∈ p.2) := by
  have hok : ∀ t, buildTable rows = .ok t →
      ∃ p, processRow r = .ok p
        ∧ ∃ v, cellTextByName r c.name = .ok v ∧ v ∈ p.2 := by
    intro t ht
    rw [buildTable] at ht
    cases hps : processRows rows with
    | error e => rw [hps] at ht; cases ht
    | ok ps =>
      obtain ⟨p, _, hpok⟩ := processRows_mem rows ps hps r hr
      exact ⟨p, hpok, processRow_ok_cells r p hpok c hc hname⟩
  refine ⟨resolveColumn_mem r c hc, ?_, hok⟩
  intro c0 h0
  refine ⟨?_, ?_, ?_, ?_⟩
  · intro s hs
    simp [cellTextByName, tryGetStringByName, h0, hs, tryGetString]
  · intro hnull
    simp [cellTextByName, tryGetStringByName, h0, hnull, tryGetString]
  · intro i hi
    simp [cellTextByName, tryGetStringByName, tryGetI64ByName, h0, hi,
      tryGetString, tryGetI64]
  · intro hother t ht
    have herr : cellTextByName r c.name = .error .columnDecode := by
      simp [cellTextByName, tryGetStringByName, tryGetI64ByName, h0, hother,
        tryGetString, tryGetI64]
    obtain ⟨p, _, v, hv, _⟩ := hok t ht
    rw [herr] at hv
    cases hv

/-- Witness for C3 (amended) at a single row whose `count` column holds
the integer 42: the rendered cell is exactly the text `"42"`. -/
theorem C3_cell_coercion_witness :
    cellTextByName [ResultColumn.mk "count" (SqlValue.integer 42)] "count"
      = .ok (toString (42 : Int))
    ∧ toString (42 : Int) = "42" :=
  ⟨((C3_cell_coercion [[ResultColumn.mk "count" (SqlValue.integer 42)]]
      [ResultColumn.mk "count" (SqlValue.integer 42)]
      (ResultColumn.mk "count" (SqlValue.integer 42))
      (by decide) (by decide) (by decide)).2.1
      (ResultColumn.mk "count" (SqlValue.integer 42)) (by decide)).2.2.1
      42 rfl,
   rfl⟩

/-- **C4**: for every successfully rendered result-row sequence, the
table's header contains no column named exactly `raw`, while every
other column of the (header-determining) last row — including columns
whose names merely contain `raw` as a substring — is retained in the
header. -/
theorem C4_raw_never_rendered (rows : List (List ResultColumn))
    (t : List TableRow) (h : buildTable rows = .ok t) :
    "raw" ∉ headerCells t
    ∧ (∀ r, rows.getLast? = some r →
        ∀ c ∈ r, c.name ≠ "raw" → c.name ∈ headerCells t) := by
  have hhdr := (buildTable_header rows t h).1
  constructor
  · rw [hhdr, lastRowHeader, rowHeader]
    intro hmem
    obtain ⟨c, hcf, hcn⟩ := List.mem_map.mp hmem
    have := List.mem_filter.mp hcf
    simp [hcn] at this
  · intro r hlast c hc hname
    rw [hhdr, lastRowHeader, List.getLastD_eq_getLast?, hlast, rowHeader]
    exact List.mem_map.mpr ⟨c, List.mem_filter.mpr ⟨hc, by simp [hname]⟩, rfl⟩

/-- Witness for C4: a row with a `raw` column and a `rawdata` column;
only `rawdata` reaches the header. -/
theorem C4_raw_never_rendered_witness :
    "raw" ∉ headerCells [TableRow.mk ["rawdata"] true, TableRow.mk ["w"] true]
    ∧ "rawdata" ∈ headerCells [TableRow.mk ["rawdata"] true, TableRow.mk ["w"] true] := by
  have h := C4_raw_never_rendered
    [[ResultColumn.mk "raw" (SqlValue.text "z"),
      ResultColumn.mk "rawdata" (SqlValue.text "w")]]
    [TableRow.mk ["rawdata"] true, TableRow.mk ["w"] true] (by rfl)
  exact ⟨h.1,
    h.2 [ResultColumn.mk "raw" (SqlValue.text "z"),
         ResultColumn.mk "rawdata" (SqlValue.text "w")] rfl
      (ResultColumn.mk "rawdata" (SqlValue.text "w")) (by decide) (by decide)⟩

/-- **C6**: for the empty result-row sequence the renderer succeeds and
produces exactly one table row — an empty header (with `Row::new`'s
default separator flag) — and no data rows; this is valid output, not
an error. -/
theorem C6_empty_rows_empty_header :
    buildTable [] = .ok [TableRow.mk [] true] := by
  rfl

/-- Witness for C8 at the all-fence input `"```"` and an executor that
rejects the empty statement. -/
theorem C8_all_fences_empty_witness :
    sanitize "```".toList = []
    ∧ runSqlStage (fun _ => (Except.error ExecError.execFailed : Except ExecError Unit))
        "```".toList = Except.error ExecError.execFailed :=
  C8_all_fences_empty "```".toList
    (fun _ => (Except.error ExecError.execFailed : Except ExecError Unit))
    ExecError.execFailed (by decide) rfl

end GTReg

namespace GTReg

/-! ## The prompt builder

`main.rs` lines 42-67. -/

/-- The Schema Descriptor: the `DB_INFO_PROMPT` constant of `main.rs`
(lines 152-232), verbatim. -/
def DB_INFO_PROMPT : String :=
  "\n" ++
  "\n" ++
  "-- Course sections\n" ++
  "CREATE TABLE sections (\n" ++
  "\tid text not null primary key,\n" ++
  "\tterm text not null, -- Course term, like 202402 for Spring 2024\n" ++
  "\tterm_description text not null, -- Human-readable term description, like \x27Spring 2024\x27\n" ++
  "\tcrn text not null, -- Course Registration Number. Unique to each section, and necessary to register.\n" ++
  "\tnumber text not null, -- Course number, like \x279000\x27 in \x27PHYS 9000\x27\n" ++
  "\tsubject text not null, -- Course subject, like \x27PHYS\x27 in \x27PHYS 9000\x27\n" ++
  "\tsubject_description text not null, -- Human-readable subject description, like \x27Physics\x27\n" ++
  "\n" ++
  "\tsection text not null, -- Section number, like \x27A\x27 or \x27O\x27. Note that an \x27O\x27 section actually indicates an online course, even if the campus is \x27Georgia Tech-Atlanta *\x27.\n" ++
  "\n" ++
  "\tcampus text not null, -- What campus. Note that in-person students can\x27t register for \x27Online\x27 courses. One of:\n" ++
  "    --  \x27Georgia Tech-Atlanta *\x27\n" ++
  "    --  \x27GT Lorraine-Undergrad Programs\x27\n" ++
  "    --  \x27Foreign Exchange\x27\n" ++
  "    --  \x27GT Lorraine-Graduate Programs\x27\n" ++
  "    --  \x27Georgia Tech - Shenzhen\x27\n" ++
  "    --  \x27Video\x27\n" ++
  "    --  \x27MBA Evening Program\x27\n" ++
  "    --  \x27Online\x27\n" ++
  "    --  \x27Georgia Tech Studies Abroad\x27\n" ++
  "    --  \x27Graduate Certificate\x27\n" ++
  "    --  \x27Georgia Southern/GTREP\x27\n" ++
  "    --  \x27GT, Peking University, &amp; Emory\x27\n" ++
  "    --  \x27Georgia Tech-Savannah\x27\n" ++
  "    --  \x27Georgia Tech - Korea\x27\n" ++
  "    --  \x27Global\x27\n" ++
  "\n" ++
  "\tschedule_type text not null, -- One of:\n" ++
  "    --  \x27Lecture*\x27\n" ++
  "    --  \x27Dissertation*\x27\n" ++
  "    --  \x27Directed Study*\x27\n" ++
  "    --  \x27Thesis*\x27\n" ++
  "    --  \x27Seminar*\x27\n" ++
  "    --  \x27Supervised Laboratory*\x27\n" ++
  "    --  \x27Studio*\x27\n" ++
  "    --  \x27Internship/Practicum*\x27\n" ++
  "    --  \x27Unsupervised Laboratory*\x27\n" ++
  "    --  \x27Breakout*\x27\n" ++
  "    --  \x27Mixed Laboratory*\x27\n" ++
  "    --  \x27Recitation*\x27\n" ++
  "    --  \x27Co-op Work Assignment\x27\n" ++
  "    --  \x27Practice Teaching*\x27\n" ++
  "    --  \x27Common Exam*\x27\n" ++
  "    \n" ++
  "\tcourse_title not null, -- The title of the course.\n" ++
  "\tcredit_hours integer not null, -- The number of credit hours awarded for taking this section.\n" ++
  "\t\n" ++
  "    -- Information about who is enrolled in the class:\n" ++
  "    max_enrollment integer not null,\n" ++
  "\tenrollment integer not null,\n" ++
  "\tseats_available integer not null,\n" ++
  "\twaitlist_capacity integer not null,\n" ++
  "\twaitlist_count integer not null,\n" ++
  "\twaitlist_available integer not null,\n" ++
  "\n" ++
  "\topen string not null, -- Whether the section is open for registration. \x27true\x27 or \x27false\x27.\n" ++
  "\tattributes text, -- Comma-separated list of attributes, like \x27ETHS,HUM\x27 for a course that fulfills the ethics and humanities requirement.\n" ++
  "\traw json not null -- Raw payload from registration system (can be ignored)\n" ++
  ");\n" ++
  "\n" ++
  "-- Names and contact informaiton of faculty.\n" ++
  "CREATE TABLE faculty (\n" ++
  "\tid text not null primary key,\n" ++
  "\tname text not null,\n" ++
  "\temail text not null\n" ++
  ");\n" ++
  "\n" ++
  "-- The faculty teaching each section.\n" ++
  "CREATE TABLE course_faculty (\n" ++
  "\tcourse_id text not null references sections(id),\n" ++
  "\tfaculty_id text not null references faculty(id),\n" ++
  "\tprimary key (course_id, faculty_id)\n" ++
  ");\n" ++
  "\n"

/-- The first system turn of the prompt (`main.rs` lines 44-62): the
`formatdoc!` instructional text with `DB_INFO_PROMPT` interpolated. -/
def promptInstruction : String :=
  "You are an agent designed to help students with course registration at Georgia Tech. You have access to a SQLite database of available sections to register. Your job is to write a query against that database to answer a student\x27s question about course registration. You should be very selective about the columns you select from the database---only include important information to answer the question. Always include a CRN, if it makes sense to do so. Do NOT include enrollment information if the user doesn\x27t ask for it.\n" ++
  "\n" ++
  "Assume this student is enrolled in the Atlanta campus, and only interested in courses they can register for in-person.\n" ++
  "\n" ++
  "If a student refers to a course like \x27CS 1331\x27, they are referring to the course number, \x271331\x27 and subject \x27CS\x27. If a student refers to \x27CS 8803 ANI\x27, they\x27re refering to the \x27ANI\x27 section of CS 8803.\n" ++
  "\n" ++
  "Here is the schema of the database:\n" ++
  "```sql\n" ++
  DB_INFO_PROMPT ++ "\n" ++
  "```\n" ++
  "\n" ++
  "The next message will have a question from a student. Read it carefully:\n"

/-- The third turn of the prompt (`main.rs` lines 64-67): the
output-format directive. -/
def promptDirective : String :=
  "Given the following question, write a single SQL query to answer it. Take a deep breath and think carefully before responding. Respond ONLY with the text of the SQL query, or else it won\x27t work and the student will be very sad."

/-- A chat role (`async_openai::types::Role`); the program uses only
`System` and `User`. -/
inductive Role
  | system
  | user
deriving DecidableEq

/-- `main.rs` lines 42-67: the conversation pushed turn by turn onto
`prompt`, in order. -/
def buildPrompt (question : String) : List (Role × String) :=
  [(Role.system, promptInstruction),
   (Role.user, question),
   (Role.system, promptDirective)]

/-! ## The query generator

`main.rs` lines 85-92: one non-streaming call to the completion
service, then
`response.choices[0].message.content.as_ref().unwrap().trim()`.
The remote call is an external effect, so the generator is modelled as
a function of the single service outcome (there is no retry: exactly
one outcome is consumed). -/

/-- Failure of the service call itself (`create(...)` returned an
error): the service was unreachable or rejected the request. -/
inductive ServiceError
  | unreachable
  | rejected
deriving DecidableEq

/-- `message` of a chat choice: `content` is optional. -/
structure ChatMessage where
  content : Option String
deriving DecidableEq

/-- One choice of a chat completion response. -/
structure ChatChoice where
  message : ChatMessage
deriving DecidableEq

/-- A chat completion response: a list of choices. -/
structure ChatResponse where
  choices : List ChatChoice
deriving DecidableEq

/-- The outcome of the query-generation stage. -/
inductive GenResult
  | ok (text : String)
  | fatalError      -- `create` failed; wrapped by `wrap_err` and `?`
  | panicNoChoices  -- `response.choices[0]` out of bounds: panic
  | panicNoContent  -- `content.as_ref().unwrap()` on `None`: panic
deriving DecidableEq

/-- Rust `str::trim` on the `String` model. -/
def strTrim (s : String) : String :=
  String.mk (rustTrim s.data)

/-- `main.rs` lines 85-92: surface a service failure via `?`; index the
first choice (panicking when there is none); unwrap its content
(panicking when missing); trim the text. -/
def queryGenerator (svc : Except ServiceError ChatResponse) : GenResult :=
  match svc with
  | .error _ => .fatalError
  | .ok resp =>
    match resp.choices with
    | [] => .panicNoChoices
    | choice :: _ =>
      match choice.message.content with
      | none => .panicNoContent
      | some c => .ok (strTrim c)

end GTReg

namespace GTReg

/-! ## Claims about the prompt builder and query generator -/

/-- **C5**: for every question string — empty and malformed ones
included — the prompt builder produces a conversation of exactly 3
turns with roles in order [System, User, System], whose second turn's
text is exactly the question. -/
theorem C5_prompt_three_turns (q : String) :
    (buildPrompt q).length = 3
    ∧ (buildPrompt q).map Prod.fst = [Role.system, Role.user, Role.system]
    ∧ (buildPrompt q)[1]? = some (Role.user, q) :=
  ⟨rfl, rfl, rfl⟩

/-- **C7 counterexample**: for a service response whose first choice
has *empty* message content, the query generator does not surface any
fatal outcome — it returns the empty string (trimmed), and the failure
only surfaces later at the execution stage. -/
theorem C7_counterexample :
    queryGenerator (Except.ok (ChatResponse.mk [ChatChoice.mk (ChatMessage.mk (some ""))]))
      = GenResult.ok ""
    ∧ GenResult.ok "" ≠ GenResult.fatalError
    ∧ GenResult.ok "" ≠ GenResult.panicNoChoices
    ∧ GenResult.ok "" ≠ GenResult.panicNoContent := by
  refine ⟨rfl, ?_, ?_, ?_⟩ <;> intro h <;> cases h

/-- **C7 (amended)**: when the completion service is unreachable or
rejects the request the generator aborts fatally; when the response has
no choices, or the first choice's content is missing, it aborts by
panicking; otherwise — including when the content is the empty string —
it returns the first choice's message text trimmed of leading and
trailing whitespace.  No retry occurs: the generator consumes exactly
one service outcome. -/
theorem C7_generator_outcomes (svc : Except ServiceError ChatResponse) :
    (∀ e, svc = .error e → queryGenerator svc = .fatalError)
    ∧ (∀ resp, svc = .ok resp → resp.choices = [] →
        queryGenerator svc = .panicNoChoices)
    ∧ (∀ resp ch rest, svc = .ok resp → resp.choices = ch :: rest →
        ch.message.content = none → queryGenerator svc = .panicNoContent)
    ∧ (∀ resp ch rest c, svc = .ok resp → resp.choices = ch :: rest →
        ch.message.content = some c → queryGenerator svc = .ok (strTrim c)) := by
  refine ⟨?_, ?_, ?_, ?_⟩
  · rintro e rfl
    rfl
  · rintro resp rfl h
    simp [queryGenerator, h]
  · rintro resp ch rest rfl h hc
    simp [queryGenerator, h, hc]
  · rintro resp ch rest c rfl h hc
    simp [queryGenerator, h, hc]

/-- Witness for C7 (amended): an unreachable service aborts fatally,
and a response carrying text comes back trimmed. -/
theorem C7_generator_outcomes_witness :
    queryGenerator (Except.error ServiceError.unreachable) = GenResult.fatalError
    ∧ queryGenerator (Except.ok (ChatResponse.mk
        [ChatChoice.mk (ChatMessage.mk (some " SELECT 1; "))]))
      = GenResult.ok (strTrim " SELECT 1; ") :=
  ⟨(C7_generator_outcomes (Except.error ServiceError.unreachable)).1
      ServiceError.unreachable rfl,
   (C7_generator_outcomes (Except.ok (ChatResponse.mk
        [ChatChoice.mk (ChatMessage.mk (some " SELECT 1; "))]))).2.2.2
      (ChatResponse.mk [ChatChoice.mk (ChatMessage.mk (some " SELECT 1; "))])
      (ChatChoice.mk (ChatMessage.mk (some " SELECT 1; "))) []
      " SELECT 1; " rfl rfl rfl⟩

end GTReg
